import Mathlib

/-!
Verification development for the mirdata dataset loaders (TONAS and Da-TACOS).

The Python sources are shallowly embedded:
* Python floats are modelled exactly: data values read from delimited files
  are rationals (ℚ), and the MIDI-to-Hz conversion, which uses real
  exponentials, takes values in ℝ (with `2 ^ x` the real power `rpow`).
* Python strings are modelled as `String` where only concrete evaluation is
  needed, and as `List Char` where structural reasoning about `split` /
  `replace` is needed (TONAS metadata lines, Da-TACOS track ids).
* A parsed delimited file is the list of its rows, each row the list of its
  already-converted numeric fields (the `float(...)` conversion of a
  well-formed numeric token is treated as the identity on its value).
* Raising an exception is modelled by `Except`; a missing file in the
  filesystem map is `Option.none`.
-/

namespace Mirdata

/-- Python `ValidationError` raised by the annotation validators. -/
inductive ValidationError where
  | mk : ValidationError
  deriving DecidableEq, Repr

/-- Python `FileNotFoundError` (the spec's `NotFoundError`) raised when a
referenced metadata file is absent. -/
inductive NotFoundError where
  | mk : NotFoundError
  deriving DecidableEq, Repr

/-! ### Python string primitives on `List Char`

`pySplit sep l` models Python `str.split(sep)` for a one-character
separator, as used by `csv.reader(..., delimiter=...)` on quote-free lines
and by `track_id.split("#")`.

`pyReplace l pat rep` models Python `str.replace(pat, rep)`: left-to-right,
non-overlapping replacement of every occurrence.  It is written with an
explicit fuel argument (an upper bound on the number of characters
consumed) so that it is structurally recursive and kernel-reducible. -/

def pySplit (sep : Char) : List Char → List (List Char)
  | [] => [[]]
  | c :: rest =>
    match pySplit sep rest with
    | [] => [[c]]
    | h :: t => if c = sep then [] :: h :: t else (c :: h) :: t

def pyReplaceAux (pat rep : List Char) : Nat → List Char → List Char
  | _, [] => []
  | 0, l => l
  | fuel + 1, c :: rest =>
    if pat ≠ [] ∧ pat.isPrefixOf (c :: rest) then
      rep ++ pyReplaceAux pat rep fuel ((c :: rest).drop pat.length)
    else
      c :: pyReplaceAux pat rep fuel rest

def pyReplace (l pat rep : List Char) : List Char :=
  pyReplaceAux pat rep l.length l

/-! ### Primitive validators

`mirdata/annotations.py` is not part of the sources under review; its
validators are modelled from the spec. -/

/-- Modelled from the spec: `validate_lengths_equal` of `mirdata/annotations.py`
(not under `src/`): all non-`None` members of the group must have equal
length; `None` members are exempt. -/
def validate_lengths_equal (lengths : List (Option Nat)) : Bool :=
  match lengths.filterMap id with
  | [] => true
  | n :: ns => ns.all fun m => m = n

/-- Successive elements strictly increase. -/
def strictly_increasing : List ℚ → Bool
  | [] => true
  | [_] => true
  | a :: b :: rest => a < b && strictly_increasing (b :: rest)

/-- Modelled from the spec: the base `F0Data` constructor's check (in
`mirdata/annotations.py`, not under `src/`) that `times` is strictly
increasing with non-negative values. -/
def validate_times (times : List ℚ) : Bool :=
  times.all (fun t => 0 ≤ t) && strictly_increasing times

/-- Modelled from the spec: the base `NoteData` constructor's interval check
(in `mirdata/annotations.py`, not under `src/`): each interval has
non-negative times and `end_time >= start_time`. -/
def validate_intervals (intervals : List (ℚ × ℚ)) : Bool :=
  intervals.all fun p => 0 ≤ p.1 ∧ p.1 ≤ p.2

/-! ### TONAS annotation records (`tonas.py`) -/

/-- The TONAS extended `F0Data` record: parallel columns of the f0
annotation. `confidence` is optional (`None` ↦ `Option.none`). -/
structure F0Data where
  times : List ℚ
  automatic_frequencies : List ℚ
  frequencies : List ℚ
  energies : List ℚ
  confidence : Option (List ℚ)
  deriving DecidableEq, Repr

/-- Constructor of the TONAS `F0Data` class: the base-class validation
(modelled from the spec, see `validate_times` / `validate_lengths_equal`)
runs on `[times, frequencies, confidence]`, then the subclass validates
lengths of `[times, automatic_frequencies, frequencies, energies,
confidence]`.  A failed check is the raised `ValidationError`. -/
def mkF0Data (times automatic_frequencies frequencies energies : List ℚ)
    (confidence : Option (List ℚ)) : Except ValidationError F0Data :=
  if validate_times times
      && validate_lengths_equal
        [some times.length, some frequencies.length, confidence.map List.length]
      && validate_lengths_equal
        [some times.length, some automatic_frequencies.length,
         some frequencies.length, some energies.length, confidence.map List.length]
  then
    Except.ok ⟨times, automatic_frequencies, frequencies, energies, confidence⟩
  else
    Except.error ValidationError.mk

/-- The TONAS extended `NoteData` record.  `notes` are frequencies in Hz
(reals, produced by the MIDI conversion); the other columns are file data. -/
structure NoteData where
  intervals : List (ℚ × ℚ)
  notes : List ℝ
  energies : List ℚ
  confidence : Option (List ℚ)

/-- Constructor of the TONAS `NoteData` class: the base class (modelled from
the spec) validates the intervals and the lengths of `[intervals, notes,
confidence]`, then the subclass validates lengths of `[intervals, notes,
energies, confidence]`. -/
def mkNoteData (intervals : List (ℚ × ℚ)) (notes : List ℝ) (energies : List ℚ)
    (confidence : Option (List ℚ)) : Except ValidationError NoteData :=
  if validate_intervals intervals
      && validate_lengths_equal
        [some intervals.length, some notes.length, confidence.map List.length]
      && validate_lengths_equal
        [some intervals.length, some notes.length, some energies.length,
         confidence.map List.length]
  then
    Except.ok ⟨intervals, notes, energies, confidence⟩
  else
    Except.error ValidationError.mk

/-! ### TONAS format parsers (`tonas.py`) -/

/-- `load_f0` (tonas.py): reads a whitespace-delimited numeric table whose
rows are `(time, energy, automatic_frequency, corrected_frequency)`, derives
`confidence = 1.0 if corrected_frequency > 0 else 0.0` per row, and
constructs `F0Data(times, freqs, freqs_corr, energies, confidence)`. -/
def load_f0 (rows : List (ℚ × ℚ × ℚ × ℚ)) : Except ValidationError F0Data :=
  mkF0Data
    (rows.map fun line => line.1)
    (rows.map fun line => line.2.2.1)
    (rows.map fun line => line.2.2.2)
    (rows.map fun line => line.2.1)
    (some (rows.map fun line => if 0 < line.2.2.2 then (1 : ℚ) else 0))

/-- `_midi_to_hz` (tonas.py): `tuning_frequency = 440 * 2 ** (tuning_deviation
/ 1200)`; result `(tuning_frequency / 32) * 2 ** ((midi_note - 9) / 12)`. -/
noncomputable def _midi_to_hz (midi_note tuning_deviation : ℝ) : ℝ :=
  (440 * (2 : ℝ) ^ (tuning_deviation / 1200) / 32) * (2 : ℝ) ^ ((midi_note - 9) / 12)

/-- `load_notes` (tonas.py): the first comma-separated row's first field is
the cents deviation `tuning`; every later row `line` contributes interval
`[line[0], line[0] + line[1]]`, pitch `_midi_to_hz(line[2], tuning)`, energy
`line[3]` and confidence `1.0`, and the columns build a `NoteData`.  A file
without a first row (or fields the code would index past) is `none`. -/
noncomputable def load_notes (file : List (List ℚ)) :
    Option (Except ValidationError NoteData) :=
  match file with
  | (tuning :: _) :: rows =>
    some (mkNoteData
      (rows.map fun line => (line.getD 0 0, line.getD 0 0 + line.getD 1 0))
      (rows.map fun line => _midi_to_hz (line.getD 2 0 : ℚ) (tuning : ℚ))
      (rows.map fun line => line.getD 3 0)
      (some (rows.map fun _ => (1 : ℚ))))
  | _ => none

/-- `_load_tuning_frequency` (tonas.py): reads the first comma-separated
field `cents_deviation` of the first row of a notes file and returns
`440 * 2 ** (cents_deviation / 1200)`. -/
noncomputable def _load_tuning_frequency (file : List (List ℚ)) : Option ℝ :=
  match file with
  | (cents_deviation :: _) :: _ =>
    some (440 * (2 : ℝ) ^ ((cents_deviation : ℝ) / 1200))
  | _ => none

/-! ### TONAS metadata (`tonas.py`, `Dataset._metadata`) -/

/-- One parsed TONAS metadata record: `{style, title, singer}`. -/
structure TonasTrackRecord where
  style : List Char
  title : List Char
  singer : List Char
  deriving DecidableEq, Repr

/-- One line of `TONAS-Metadata.txt` as processed by `Dataset._metadata`
(tonas.py): stray null bytes are stripped (`x.replace("\0", "")`), the line
is tab-split, empty lines are skipped, the key is `line[0].replace(".wav",
"")` and the value is `{style: line[1], title: line[2], singer: line[3]}`.
A line the code would index past is `none`. -/
def tonas_parse_line (line : List Char) : Option (List Char × TonasTrackRecord) :=
  match pySplit '\t' (pyReplace line ['\x00'] []) with
  | filename :: style :: title :: singer :: _ =>
    some (pyReplace filename ".wav".toList [], ⟨style, title, singer⟩)
  | _ => none

/-- The metadata mapping built by the TONAS `Dataset._metadata` from the
lines of the metadata file. -/
def tonas_parse_lines (lines : List (List Char)) :
    List (List Char × TonasTrackRecord) :=
  lines.filterMap tonas_parse_line

/-- `Dataset._metadata` (tonas.py): raises `FileNotFoundError` when
`{data_home}/TONAS-Metadata.txt` does not exist, otherwise parses it.  The
filesystem is a map from paths to file lines. -/
def tonas_dataset_metadata (fs : List Char → Option (List (List Char)))
    (data_home : List Char) :
    Except NotFoundError (List (List Char × TonasTrackRecord)) :=
  match fs (data_home ++ "/TONAS-Metadata.txt".toList) with
  | none => Except.error NotFoundError.mk
  | some lines => Except.ok (tonas_parse_lines lines)

/-! ### Da-TACOS feature-blob loaders (`da_tacos.py`)

A deserialized feature blob (`dd.io.load(...)`) is a dictionary from string
keys to values; `d[k]` on a missing key raises, modelled by `Option`. -/

/-- A deserialized feature-blob mapping with values of type `α`. -/
def Blob (α : Type) : Type := List (String × α)

/-- Python `d[k]` on a blob dictionary. -/
def Blob.get (blob : Blob α) (key : String) : Option α :=
  List.lookup key blob

/-- `load_cens` (da_tacos.py): `dd.io.load(...)["chroma_cens"]`. -/
def load_cens (blob : Blob α) : Option α := blob.get "chroma_cens"

/-- `load_crema` (da_tacos.py): `dd.io.load(...)["crema"]`. -/
def load_crema (blob : Blob α) : Option α := blob.get "crema"

/-- `load_hpcp` (da_tacos.py): `dd.io.load(...)["hpcp"]`. -/
def load_hpcp (blob : Blob α) : Option α := blob.get "hpcp"

/-- `load_key` (da_tacos.py): `dd.io.load(...)["key_extractor"]`. -/
def load_key (blob : Blob α) : Option α := blob.get "key_extractor"

/-- `load_madmom` (da_tacos.py): `dd.io.load(...)["madmom_features"]`. -/
def load_madmom (blob : Blob α) : Option α := blob.get "madmom_features"

/-- `load_mfcc` (da_tacos.py): `dd.io.load(...)["mfcc_htk"]`. -/
def load_mfcc (blob : Blob α) : Option α := blob.get "mfcc_htk"

/-- `load_tags` (da_tacos.py): `dd.io.load(...)["tags"]`. -/
def load_tags (blob : Blob α) : Option α := blob.get "tags"

/-! ### Da-TACOS track metadata (`da_tacos.py`) -/

/-- A Python value stored in a Da-TACOS metadata dictionary (enough of the
Python value universe to express `dict.get` results compared with `==`). -/
inductive MetaValue where
  | str : String → MetaValue
  | bool : Bool → MetaValue
  | int : Int → MetaValue
  deriving DecidableEq, Repr

/-- A per-performance metadata dictionary. -/
def TrackMetadata : Type := List (String × MetaValue)

/-- Python `==` between the result of `dict.get` (possibly `None`) and a
string literal: equal only when the stored value is that very string. -/
def pyEqStr (v : Option MetaValue) (s : String) : Bool :=
  match v with
  | some (MetaValue.str t) => t == s
  | _ => false

/-- `Track.is_instrumental` (da_tacos.py):
`self._track_metadata.get("instrumental") == "Yes"`. -/
def is_instrumental (md : TrackMetadata) : Bool :=
  pyEqStr (List.lookup "instrumental" md) "Yes"

/-! ### Da-TACOS track-id structure (`da_tacos.py`)

`Dataset._metadata` keys its entries by `subset + "#" + work_id + "#" +
performance_id`; `Track.__init__` recovers the components with
`track_id.split("#")`.  Track ids are `List Char` so that `split` is the
structural `pySplit`. -/

/-- The track-id built by `Dataset._metadata` (da_tacos.py):
`subset + "#" + work_id + "#" + performance_id`. -/
def mkTrackId (subset work_id performance_id : List Char) : List Char :=
  subset ++ ('#' :: (work_id ++ ('#' :: performance_id)))

/-- The fields `Track.__init__` (da_tacos.py) derives from the track id. -/
structure DaTacosTrack where
  subset : List Char
  work_id : List Char
  label : List Char
  performance_id : List Char
  deriving DecidableEq, Repr

/-- `Track.__init__` (da_tacos.py): `subset = track_id.split("#")[0]`,
`work_id = track_id.split("#")[1]`, `label = work_id`,
`performance_id = track_id.split("#")[2]`. -/
def mkTrack (track_id : List Char) : DaTacosTrack :=
  let parts := pySplit '#' track_id
  { subset := parts.getD 0 []
    work_id := parts.getD 1 []
    label := parts.getD 1 []
    performance_id := parts.getD 2 [] }

/-- The nested per-subset JSON metadata:
`work_id -> performance_id -> metadata`. -/
def SubsetJson : Type := List (List Char × List (List Char × TrackMetadata))

/-- The index built by the second loop of `Dataset._metadata` (da_tacos.py)
for one subset: `metadata_index[subset + "#" + work_id + "#" +
performance_id] = meta[work_id][performance_id]`. -/
def da_tacos_index_subset (subset : List Char) (meta : SubsetJson) :
    List (List Char × TrackMetadata) :=
  meta.flatMap fun work =>
    work.2.map fun perf => (mkTrackId subset work.1 perf.1, perf.2)

/-- The path of one subset's metadata file
(`{data_home}/da-tacos_metadata/da-tacos_{subset}_subset_metadata.json`). -/
def da_tacos_metadata_path (data_home subset : List Char) : List Char :=
  data_home ++ "/da-tacos_metadata/da-tacos_".toList ++ subset
    ++ "_subset_metadata.json".toList

/-- `Dataset._metadata` (da_tacos.py): first checks that the metadata file
of each subset (`benchmark`, `coveranalysis`) exists, raising
`FileNotFoundError` otherwise; only then reads both and builds the combined
track-id index. -/
def da_tacos_dataset_metadata (fs : List Char → Option SubsetJson)
    (data_home : List Char) :
    Except NotFoundError (List (List Char × TrackMetadata)) :=
  match fs (da_tacos_metadata_path data_home "benchmark".toList),
      fs (da_tacos_metadata_path data_home "coveranalysis".toList) with
  | some benchmark_meta, some coveranalysis_meta =>
    Except.ok (da_tacos_index_subset "benchmark".toList benchmark_meta
      ++ da_tacos_index_subset "coveranalysis".toList coveranalysis_meta)
  | _, _ => Except.error NotFoundError.mk

deriving instance DecidableEq for Except

/-! ### Theorems -/

/-- C1: `_midi_to_hz(m, c)` equals `(tuning_freq / 32) * 2^((m - 9) / 12)`
with `tuning_freq = 440 * 2^(c / 1200)`, so MIDI note 69 maps to
`tuning_freq` (`440.0` at 0 cents, `880.0` at 1200 cents, and note 57 maps
to `220.0` at 0 cents); and `_load_tuning_frequency` on a notes file whose
first comma-separated field is `c` returns the same
`tuning_freq = 440 * 2^(c / 1200)`. -/
theorem midi_to_hz_tuning_adjusted :
    (∀ m c : ℝ, _midi_to_hz m c
      = (440 * (2 : ℝ) ^ (c / 1200) / 32) * (2 : ℝ) ^ ((m - 9) / 12)) ∧
    (∀ c : ℝ, _midi_to_hz 69 c = 440 * (2 : ℝ) ^ (c / 1200)) ∧
    _midi_to_hz 69 0 = 440 ∧
    _midi_to_hz 69 1200 = 880 ∧
    _midi_to_hz 57 0 = 220 ∧
    (∀ (c : ℚ) (rest : List ℚ) (rows : List (List ℚ)),
      _load_tuning_frequency ((c :: rest) :: rows)
        = some (440 * (2 : ℝ) ^ ((c : ℝ) / 1200))) := by
  have h69 : ∀ c : ℝ, _midi_to_hz 69 c = 440 * (2 : ℝ) ^ (c / 1200) := by
    intro c
    unfold _midi_to_hz
    rw [show ((69 : ℝ) - 9) / 12 = ((5 : ℕ) : ℝ) by norm_num,
      Real.rpow_natCast]
    ring
  refine ⟨fun m c => rfl, h69, ?_, ?_, ?_, fun c rest rows => rfl⟩
  · rw [h69 0, show (0 : ℝ) / 1200 = 0 by norm_num, Real.rpow_zero]
    norm_num
  · rw [h69 1200, show (1200 : ℝ) / 1200 = 1 by norm_num, Real.rpow_one]
    norm_num
  · unfold _midi_to_hz
    rw [show ((57 : ℝ) - 9) / 12 = ((4 : ℕ) : ℝ) by norm_num,
      show (0 : ℝ) / 1200 = 0 by norm_num, Real.rpow_zero, Real.rpow_natCast]
    norm_num

/-- Unfolding of `validate_lengths_equal` for a `[times, frequencies,
confidence]` group. -/
lemma validate_lengths_equal_three (n1 n2 : Nat) (c : Option Nat) :
    validate_lengths_equal [some n1, some n2, c] = true ↔
      (n2 = n1 ∧ ∀ k, c = some k → k = n1) := by
  cases c <;> simp [validate_lengths_equal]

/-- Unfolding of `validate_lengths_equal` for a `[times,
automatic_frequencies, frequencies, energies, confidence]` group. -/
lemma validate_lengths_equal_five (n1 n2 n3 n4 : Nat) (c : Option Nat) :
    validate_lengths_equal [some n1, some n2, some n3, some n4, c] = true ↔
      (n2 = n1 ∧ n3 = n1 ∧ n4 = n1 ∧ ∀ k, c = some k → k = n1) := by
  cases c <;> simp [validate_lengths_equal, and_assoc]

/-- C2: on a well-formed whitespace-delimited f0 file (rows
`(time, energy, automatic_frequency, corrected_frequency)`, times strictly
increasing and non-negative) `load_f0` returns the `F0Data` whose `times`,
`automatic_frequencies`, `frequencies` and `energies` are the corresponding
columns in row order and whose confidence is `1.0` where the corrected
frequency is `> 0` and `0.0` elsewhere. -/
theorem load_f0_parses_columns (rows : List (ℚ × ℚ × ℚ × ℚ))
    (h : validate_times (rows.map fun line => line.1) = true) :
    load_f0 rows = Except.ok
      { times := rows.map fun line => line.1
        automatic_frequencies := rows.map fun line => line.2.2.1
        frequencies := rows.map fun line => line.2.2.2
        energies := rows.map fun line => line.2.1
        confidence :=
          some (rows.map fun line => if 0 < line.2.2.2 then (1 : ℚ) else 0) } := by
  unfold load_f0 mkF0Data
  rw [h]
  simp [validate_lengths_equal]

/-- C2 witness: the spec's example, a corrected-frequency column
`[0.0, 5.0, -1.0, 3.2]` yields confidence `[0.0, 1.0, 0.0, 1.0]`, and every
other attribute is its column. -/
theorem load_f0_parses_columns_spec_instance :
    validate_times [0, 1, 2, 3] = true ∧
    load_f0 [(0, 10, 100, 0), (1, 11, 101, 5), (2, 12, 102, -1), (3, 13, 103, 3.2)]
      = Except.ok
        { times := [0, 1, 2, 3]
          automatic_frequencies := [100, 101, 102, 103]
          frequencies := [0, 5, -1, 3.2]
          energies := [10, 11, 12, 13]
          confidence := some [0, 1, 0, 1] } := by
  refine ⟨by decide, ?_⟩
  rw [load_f0_parses_columns _ (by decide)]
  norm_num

/-- C4: constructing a TONAS `F0Data` succeeds only if all non-`None`
arrays have the same length as `times`, and yields the raised
`ValidationError` whenever any two non-`None` arrays have different
lengths; a `None` confidence is exempt from the length check. -/
theorem f0data_length_validation
    (t a f e : List ℚ) (c : Option (List ℚ)) :
    (∀ d, mkF0Data t a f e c = Except.ok d →
      (t.length = a.length ∧ t.length = f.length ∧ t.length = e.length ∧
        ∀ cl, c = some cl → t.length = cl.length)) ∧
    (¬ (t.length = a.length ∧ t.length = f.length ∧ t.length = e.length ∧
        ∀ cl, c = some cl → t.length = cl.length) →
      mkF0Data t a f e c = Except.error ValidationError.mk) := by
  have hiff :
      validate_lengths_equal
          [some t.length, some a.length, some f.length, some e.length,
            c.map List.length] = true ↔
        (t.length = a.length ∧ t.length = f.length ∧ t.length = e.length ∧
          ∀ cl, c = some cl → t.length = cl.length) := by
    rw [validate_lengths_equal_five]
    cases c <;> simp <;> tauto
  constructor
  · intro d hd
    unfold mkF0Data at hd
    by_cases hcond :
        (validate_times t
          && validate_lengths_equal
            [some t.length, some f.length, c.map List.length]
          && validate_lengths_equal
            [some t.length, some a.length, some f.length, some e.length,
              c.map List.length]) = true
    · exact hiff.mp (by simpa using (Bool.and_eq_true .. ▸ hcond).2)
    · rw [if_neg (by simpa using hcond)] at hd
      exact absurd hd (by simp)
  · intro hne
    unfold mkF0Data
    rw [if_neg]
    intro hcond
    exact hne (hiff.mp (by simpa using (Bool.and_eq_true .. ▸ hcond).2))

/-- C4 witness: equal-length inputs (with `None` confidence exempt)
construct successfully and satisfy the length equalities; a mismatched
`energies` length yields the `ValidationError`. -/
theorem f0data_length_validation_instance :
    mkF0Data [0, 1] [5, 6] [7, 8] [9, 10] none
      = Except.ok ⟨[0, 1], [5, 6], [7, 8], [9, 10], none⟩ ∧
    mkF0Data [0, 1] [5, 6] [7, 8] [9] (some [1, 1])
      = Except.error ValidationError.mk :=
  ⟨by decide,
    (f0data_length_validation [0, 1] [5, 6] [7, 8] [9] (some [1, 1])).2
      (by norm_num)⟩

/-- Unfolding of `validate_lengths_equal` for a `[intervals, notes,
energies, confidence]` group. -/
lemma validate_lengths_equal_four (n1 n2 n3 : Nat) (c : Option Nat) :
    validate_lengths_equal [some n1, some n2, some n3, c] = true ↔
      (n2 = n1 ∧ n3 = n1 ∧ ∀ k, c = some k → k = n1) := by
  cases c <;> simp [validate_lengths_equal, and_assoc]

/-- C5: constructing a TONAS `NoteData` succeeds only if every interval has
non-negative start and `end_time >= start_time` and all non-`None` parallel
arrays have the length of `intervals`; it yields the raised
`ValidationError` when some interval has `end_time < start_time` or some
lengths mismatch. -/
theorem notedata_validation
    (intervals : List (ℚ × ℚ)) (notes : List ℝ) (energies : List ℚ)
    (confidence : Option (List ℚ)) :
    (∀ d, mkNoteData intervals notes energies confidence = Except.ok d →
      ((∀ p ∈ intervals, 0 ≤ p.1 ∧ p.1 ≤ p.2) ∧
        intervals.length = notes.length ∧
        intervals.length = energies.length ∧
        ∀ cl, confidence = some cl → intervals.length = cl.length)) ∧
    ((∃ p ∈ intervals, p.2 < p.1) ∨
        ¬ (intervals.length = notes.length ∧
          intervals.length = energies.length ∧
          ∀ cl, confidence = some cl → intervals.length = cl.length) →
      mkNoteData intervals notes energies confidence
        = Except.error ValidationError.mk) := by
  have hiv : validate_intervals intervals = true ↔
      ∀ p ∈ intervals, 0 ≤ p.1 ∧ p.1 ≤ p.2 := by
    simp [validate_intervals]
  have hlen : validate_lengths_equal
        [some intervals.length, some notes.length, some energies.length,
          confidence.map List.length] = true ↔
      (intervals.length = notes.length ∧
        intervals.length = energies.length ∧
        ∀ cl, confidence = some cl → intervals.length = cl.length) := by
    rw [validate_lengths_equal_four]
    cases confidence <;> simp <;> tauto
  constructor
  · intro d hd
    unfold mkNoteData at hd
    by_cases hcond :
        (validate_intervals intervals
          && validate_lengths_equal
            [some intervals.length, some notes.length, confidence.map List.length]
          && validate_lengths_equal
            [some intervals.length, some notes.length, some energies.length,
              confidence.map List.length]) = true
    · have h1 := Bool.and_eq_true .. ▸ hcond
      exact ⟨hiv.mp (Bool.and_eq_true .. ▸ h1.1).1, hlen.mp h1.2⟩
    · rw [if_neg (by simpa using hcond)] at hd
      exact absurd hd (by simp)
  · intro hbad
    unfold mkNoteData
    rw [if_neg]
    intro hcond
    have h1 := Bool.and_eq_true .. ▸ hcond
    rcases hbad with ⟨p, hp, hlt⟩ | hmis
    · have hp' := hiv.mp (Bool.and_eq_true .. ▸ h1.1).1 p hp
      linarith [hp'.2]
    · exact hmis (hlen.mp h1.2)

/-- C5 witness: an interval with `end_time < start_time` makes the
constructor yield the `ValidationError`. -/
theorem notedata_validation_instance :
    mkNoteData [(1, 1 / 2)] [440] [3] none = Except.error ValidationError.mk :=
  (notedata_validation [(1, 1 / 2)] [440] [3] none).2 (Or.inl (by norm_num))

/-- Success shape of the TONAS `NoteData` constructor (used to settle the
note-parser claim). -/
lemma mkNoteData_ok (intervals : List (ℚ × ℚ)) (notes : List ℝ)
    (energies : List ℚ) (cl : List ℚ)
    (hiv : validate_intervals intervals = true)
    (h1 : notes.length = intervals.length)
    (h2 : energies.length = intervals.length)
    (h3 : cl.length = intervals.length) :
    mkNoteData intervals notes energies (some cl)
      = Except.ok ⟨intervals, notes, energies, some cl⟩ := by
  unfold mkNoteData
  rw [if_pos]
  simp only [Bool.and_eq_true]
  exact ⟨⟨hiv, by simp [validate_lengths_equal, h1, h3]⟩,
    by simp [validate_lengths_equal, h1, h2, h3]⟩

/-- C3: on a well-formed comma-separated notes file — first row starting
with the cents deviation `tuning`, each later row
`(onset_time, duration, midi_note, energy)` with non-negative onset and
duration — `load_notes` produces the `NoteData` whose interval per row is
`[onset_time, onset_time + duration]`, whose note is the tuning-adjusted
MIDI-to-Hz conversion of `midi_note`, and whose confidence is always
`1.0`. -/
theorem load_notes_rows (tuning : ℚ) (firstRest : List ℚ)
    (rows : List (ℚ × ℚ × ℚ × ℚ))
    (hvalid : ∀ r ∈ rows, 0 ≤ r.1 ∧ 0 ≤ r.2.1) :
    load_notes
        ((tuning :: firstRest)
          :: rows.map fun r => [r.1, r.2.1, r.2.2.1, r.2.2.2])
      = some (Except.ok
        { intervals := rows.map fun r => (r.1, r.1 + r.2.1)
          notes := rows.map fun r => _midi_to_hz (r.2.2.1 : ℝ) (tuning : ℝ)
          energies := rows.map fun r => r.2.2.2
          confidence := some (rows.map fun _ => (1 : ℚ)) }) := by
  have e1 : (rows.map fun r => [r.1, r.2.1, r.2.2.1, r.2.2.2]).map
        (fun line => (line.getD 0 0, line.getD 0 0 + line.getD 1 0))
      = rows.map fun r => (r.1, r.1 + r.2.1) := by
    rw [List.map_map]; rfl
  have e2 : (rows.map fun r => [r.1, r.2.1, r.2.2.1, r.2.2.2]).map
        (fun line => _midi_to_hz ((line.getD 2 0 : ℚ) : ℝ) ((tuning : ℚ) : ℝ))
      = rows.map fun r => _midi_to_hz (r.2.2.1 : ℝ) (tuning : ℝ) := by
    rw [List.map_map]; rfl
  have e3 : (rows.map fun r => [r.1, r.2.1, r.2.2.1, r.2.2.2]).map
        (fun line => line.getD 3 0)
      = rows.map fun r => r.2.2.2 := by
    rw [List.map_map]; rfl
  have e4 : (rows.map fun r => [r.1, r.2.1, r.2.2.1, r.2.2.2]).map
        (fun _ => (1 : ℚ))
      = rows.map fun _ => (1 : ℚ) := by
    rw [List.map_map]; rfl
  have hiv : validate_intervals (rows.map fun r => (r.1, r.1 + r.2.1)) = true := by
    simp only [validate_intervals, List.all_eq_true, List.mem_map,
      decide_eq_true_eq]
    rintro p ⟨r, hr, rfl⟩
    obtain ⟨h0, h1⟩ := hvalid r hr
    exact ⟨h0, show r.1 ≤ r.1 + r.2.1 by linarith⟩
  show some (mkNoteData _ _ _ _) = _
  rw [e1, e2, e3, e4,
    mkNoteData_ok _ _ _ _ hiv (by simp) (by simp) (by simp)]

/-- C3 witness: a concrete notes file with cents deviation `0` and one row
`(0, 1, 69, 5)` yields interval `[0, 0 + 1]`, the converted pitch of MIDI
note 69, energy `5`, and confidence `1.0`. -/
theorem load_notes_rows_instance :
    (∀ r ∈ [((0 : ℚ), (1 : ℚ), (69 : ℚ), (5 : ℚ))], 0 ≤ r.1 ∧ 0 ≤ r.2.1) ∧
    load_notes [[0], [0, 1, 69, 5]] = some (Except.ok
      { intervals := [(0, 0 + 1)]
        notes := [_midi_to_hz ((69 : ℚ) : ℝ) ((0 : ℚ) : ℝ)]
        energies := [5]
        confidence := some [1] }) :=
  ⟨by decide, load_notes_rows 0 [] [(0, 1, 69, 5)] (by decide)⟩

/-- Dictionary lookup finds the entry of a key that no earlier entry
shadows, regardless of the other entries. -/
lemma lookup_append_first (k : String) (v : α) (b₁ b₂ : List (String × α))
    (h : ∀ p ∈ b₁, p.1 ≠ k) :
    List.lookup k (b₁ ++ (k, v) :: b₂) = some v := by
  induction b₁ with
  | nil => simp [List.lookup]
  | cons p rest ih =>
    have hp : (k == p.1) = false :=
      beq_eq_false_iff_ne.mpr (Ne.symm (h p (by simp)))
    simpa [List.lookup, hp] using ih fun q hq => h q (by simp [hq])

/-- C6: each single-key Da-TACOS feature loader returns exactly the value
its blob stores under its key — `chroma_cens` for `load_cens`, `hpcp` for
`load_hpcp`, `key_extractor` for `load_key`, `madmom_features` for
`load_madmom`, `mfcc_htk` for `load_mfcc`, `tags` for `load_tags` —
unmodified and ignoring all the other keys of the blob. -/
theorem blob_loaders_extract_single_key {α : Type}
    (b₁ b₂ : List (String × α)) (v : α) :
    ((∀ p ∈ b₁, p.1 ≠ "chroma_cens") →
      load_cens (b₁ ++ ("chroma_cens", v) :: b₂) = some v) ∧
    ((∀ p ∈ b₁, p.1 ≠ "hpcp") →
      load_hpcp (b₁ ++ ("hpcp", v) :: b₂) = some v) ∧
    ((∀ p ∈ b₁, p.1 ≠ "key_extractor") →
      load_key (b₁ ++ ("key_extractor", v) :: b₂) = some v) ∧
    ((∀ p ∈ b₁, p.1 ≠ "madmom_features") →
      load_madmom (b₁ ++ ("madmom_features", v) :: b₂) = some v) ∧
    ((∀ p ∈ b₁, p.1 ≠ "mfcc_htk") →
      load_mfcc (b₁ ++ ("mfcc_htk", v) :: b₂) = some v) ∧
    ((∀ p ∈ b₁, p.1 ≠ "tags") →
      load_tags (b₁ ++ ("tags", v) :: b₂) = some v) :=
  ⟨fun h => lookup_append_first _ v b₁ b₂ h,
   fun h => lookup_append_first _ v b₁ b₂ h,
   fun h => lookup_append_first _ v b₁ b₂ h,
   fun h => lookup_append_first _ v b₁ b₂ h,
   fun h => lookup_append_first _ v b₁ b₂ h,
   fun h => lookup_append_first _ v b₁ b₂ h⟩

/-- A heterogeneous feature value, for concrete blobs. -/
inductive FeatureValue where
  | arr : List ℚ → FeatureValue
  | str : String → FeatureValue
  deriving DecidableEq, Repr

/-- C6 witness: requesting `"hpcp"` from a blob holding
`{"hpcp": [...], "label": "W_1", "track_id": "P_1"}` returns exactly the
array value, untransformed. -/
theorem blob_loaders_extract_single_key_instance :
    load_hpcp [("hpcp", FeatureValue.arr [1, 0, 0]),
        ("label", FeatureValue.str "W_1"),
        ("track_id", FeatureValue.str "P_1")]
      = some (FeatureValue.arr [1, 0, 0]) :=
  (blob_loaders_extract_single_key []
    [("label", FeatureValue.str "W_1"), ("track_id", FeatureValue.str "P_1")]
    (FeatureValue.arr [1, 0, 0])).2.1 (by simp)

/-- C9: `Track.is_instrumental` is `True` exactly when the metadata maps
`"instrumental"` to the very string `"Yes"`; a stored boolean `True`, the
string `"yes"`, or a missing field all yield `False`. -/
theorem is_instrumental_iff_yes :
    (∀ md : TrackMetadata,
      is_instrumental md = true ↔
        List.lookup "instrumental" md = some (MetaValue.str "Yes")) ∧
    is_instrumental [("instrumental", MetaValue.bool true)] = false ∧
    is_instrumental [("instrumental", MetaValue.str "yes")] = false ∧
    is_instrumental [] = false := by
  refine ⟨fun md => ?_, by decide, by decide, by decide⟩
  unfold is_instrumental pyEqStr
  cases h : List.lookup "instrumental" md with
  | none => simp
  | some v => cases v <;> simp [beq_iff_eq]

/-- C9 witness: the stored string `"Yes"` yields `True`. -/
theorem is_instrumental_iff_yes_instance :
    is_instrumental [("instrumental", MetaValue.str "Yes")] = true :=
  (is_instrumental_iff_yes.1 [("instrumental", MetaValue.str "Yes")]).mpr
    (by decide)

/-- C7: a metadata line whose null-stripped tab-split is
`[filename, style, title, singer]` is parsed to the key `filename` with its
`.wav` extension stripped, mapped to `{style, title, singer}`; in
particular `"0000.wav\tMartinete 1\tTitle X\tSinger Y"` yields `"0000" ↦
{style: "Martinete 1", title: "Title X", singer: "Singer Y"}`, and an
embedded null byte is stripped before parsing. -/
theorem tonas_metadata_line_parsing :
    (∀ line filename style title singer : List Char,
      pySplit '\t' (pyReplace line ['\x00'] [])
          = [filename, style, title, singer] →
      tonas_parse_line line
        = some (pyReplace filename ".wav".toList [], ⟨style, title, singer⟩)) ∧
    tonas_parse_line "0000.wav\tMartinete 1\tTitle X\tSinger Y".toList
      = some ("0000".toList,
        ⟨"Martinete 1".toList, "Title X".toList, "Singer Y".toList⟩) ∧
    tonas_parse_line "0000.wav\x00\tMartinete 1\tTitle X\tSinger Y".toList
      = some ("0000".toList,
        ⟨"Martinete 1".toList, "Title X".toList, "Singer Y".toList⟩) := by
  refine ⟨fun line filename style title singer h => ?_, by decide, by decide⟩
  unfold tonas_parse_line
  rw [h]

/-- C7 witness: the general statement applied to the spec's example line. -/
theorem tonas_metadata_line_parsing_instance :
    pySplit '\t' (pyReplace "0000.wav\tMartinete 1\tTitle X\tSinger Y".toList
        ['\x00'] [])
      = ["0000.wav".toList, "Martinete 1".toList, "Title X".toList,
        "Singer Y".toList] ∧
    tonas_parse_line "0000.wav\tMartinete 1\tTitle X\tSinger Y".toList
      = some (pyReplace "0000.wav".toList ".wav".toList [],
        ⟨"Martinete 1".toList, "Title X".toList, "Singer Y".toList⟩) :=
  ⟨by decide,
    tonas_metadata_line_parsing.1 _ _ _ _ _ (by decide)⟩

/-- C8: when a dataset's metadata file is absent from the filesystem, the
metadata request yields the raised error instead of an empty or partial
mapping — for TONAS when `TONAS-Metadata.txt` is missing, for Da-TACOS when
either subset metadata JSON file is missing. -/
theorem metadata_missing_file_errors :
    (∀ (fs : List Char → Option (List (List Char))) (data_home : List Char),
      fs (data_home ++ "/TONAS-Metadata.txt".toList) = none →
      tonas_dataset_metadata fs data_home = Except.error NotFoundError.mk) ∧
    (∀ (fs : List Char → Option SubsetJson) (data_home : List Char),
      fs (da_tacos_metadata_path data_home "benchmark".toList) = none ∨
        fs (da_tacos_metadata_path data_home "coveranalysis".toList) = none →
      da_tacos_dataset_metadata fs data_home
        = Except.error NotFoundError.mk) := by
  constructor
  · intro fs data_home h
    unfold tonas_dataset_metadata
    rw [h]
  · intro fs data_home h
    unfold da_tacos_dataset_metadata
    rcases h with h | h
    · rw [h]
    · cases h1 : fs (da_tacos_metadata_path data_home "benchmark".toList) with
      | none => rfl
      | some val => rw [h]

/-- C8 witness: the empty filesystem makes both datasets' metadata requests
error. -/
theorem metadata_missing_file_errors_instance :
    tonas_dataset_metadata (fun _ => none) [] = Except.error NotFoundError.mk ∧
    da_tacos_dataset_metadata (fun _ => none) []
      = Except.error NotFoundError.mk :=
  ⟨metadata_missing_file_errors.1 (fun _ => none) [] rfl,
    metadata_missing_file_errors.2 (fun _ => none) [] (Or.inl rfl)⟩

/-- `pySplit` never returns the empty list. -/
lemma pySplit_ne_nil (sep : Char) (l : List Char) : pySplit sep l ≠ [] := by
  cases l with
  | nil => simp [pySplit]
  | cons c rest =>
    cases hp : pySplit sep rest with
    | nil => simp [pySplit, hp]
    | cons x t =>
      simp only [pySplit, hp]
      split <;> simp

/-- Splitting a separator-free word leaves it whole. -/
lemma pySplit_of_not_mem (sep : Char) (l : List Char) (h : sep ∉ l) :
    pySplit sep l = [l] := by
  induction l with
  | nil => rfl
  | cons c rest ih =>
    have hc : ¬ c = sep := fun hc => h (hc ▸ List.mem_cons_self c rest)
    have hr := ih fun hm => h (List.mem_cons_of_mem c hm)
    simp [pySplit, hr, hc]

/-- Splitting consumes a separator-free first field up to the first
separator. -/
lemma pySplit_append (sep : Char) (a rest : List Char) (h : sep ∉ a) :
    pySplit sep (a ++ sep :: rest) = a :: pySplit sep rest := by
  induction a with
  | nil =>
    cases hp : pySplit sep rest with
    | nil => exact absurd hp (pySplit_ne_nil sep rest)
    | cons x t => simp [pySplit, hp]
  | cons c a' ih =>
    have hc : ¬ c = sep := fun hc => h (hc ▸ List.mem_cons_self c a')
    have hr := ih fun hm => h (List.mem_cons_of_mem c hm)
    cases hp : pySplit sep (a' ++ sep :: rest) with
    | nil => exact absurd hp (pySplit_ne_nil sep _)
    | cons x t =>
      rw [hp] at hr
      cases hr
      simp [pySplit, hp, hc]

/-- C10: for `'#'`-free components, building the track id as
`subset + "#" + work_id + "#" + performance_id` (the keying used by
`Dataset._metadata`) and constructing a `Track` from it recovers the
components exactly, with `label` equal to `work_id`. -/
theorem track_id_split_roundtrip (subset work_id performance_id : List Char)
    (hs : '#' ∉ subset) (hw : '#' ∉ work_id) (hp : '#' ∉ performance_id) :
    mkTrack (mkTrackId subset work_id performance_id)
      = ⟨subset, work_id, work_id, performance_id⟩ := by
  unfold mkTrack mkTrackId
  rw [pySplit_append _ _ _ hs, pySplit_append _ _ _ hw,
    pySplit_of_not_mem _ _ hp]
  rfl

/-- C10 witness: a concrete benchmark-subset track id round-trips. -/
theorem track_id_split_roundtrip_instance :
    mkTrack (mkTrackId "benchmark".toList "W_163992".toList "P_547131".toList)
      = ⟨"benchmark".toList, "W_163992".toList, "W_163992".toList,
        "P_547131".toList⟩ :=
  track_id_split_roundtrip "benchmark".toList "W_163992".toList
    "P_547131".toList (by decide) (by decide) (by decide)

end Mirdata
